import Mathlib

/-!
Shallow embedding of `DPG/Tasks/qaK0sTrackingEfficiency.cxx` (ALICE O2Physics):
a single analysis task that selects K0-short V0 candidates and fills
histograms.  Numeric fields (`double`/`float` in the source) are modelled as
rationals; histograms are modelled as lists of fill values, appended in the
order the code issues `registry.fill` calls.
-/

namespace K0sQA

/-- The four `Configurable` members of the task (source lines 62-65),
with their declared defaults. -/
structure Config where
  v0cospa : ℚ
  rapidity : ℚ
  nSigTPC : ℚ
  eventSelection : Bool
deriving Repr, DecidableEq

/-- Default configuration values: `v0cospa = 0.995` (= 199/200),
`rapidity = 0.5`, `nSigTPC = 10`, `eventSelection = true`.  The fractional
defaults are written as normal-form rationals so that concrete runs of the
embedded code reduce inside the kernel. -/
def defaultConfig : Config :=
  { v0cospa := ⟨199, 200, by norm_num, by norm_num⟩
    rapidity := ⟨1, 2, by norm_num, by norm_num⟩
    nSigTPC := 10
    eventSelection := true }

/-- A daughter track row as read by the task: the `hasTPC()`, `hasITS()`,
`itsClusterMap()` and `tpcNSigmaPi()` accessors of the joined
`Tracks`/`TracksExtra`/`pidTPCPi` table. -/
structure Track where
  hasTPC : Bool
  hasITS : Bool
  itsClusterMap : ℕ
  tpcNSigmaPi : ℚ
deriving Repr, DecidableEq

/-- A collision (event) row: vertex position and the `sel8()` event-quality
flag from the joined `Collisions`/`EvSels` table. -/
structure Collision where
  posX : ℚ
  posY : ℚ
  posZ : ℚ
  sel8 : Bool
deriving Repr, DecidableEq

/-- A `V0Data` row.  `v0cosPA` is the accessor computing the pointing-angle
cosine from a vertex position, as called at source line 71; the remaining
fields are the scalar accessors used by the task. -/
structure V0 where
  v0cosPA : ℚ → ℚ → ℚ → ℚ
  yK0Short : ℚ
  v0radius : ℚ
  pt : ℚ
  mK0Short : ℚ

/-- A V0 candidate together with its resolved daughter tracks
(`v0.posTrack_as<PIDTracks>()` / `v0.negTrack_as<PIDTracks>()`,
source lines 91-92). -/
structure V0Entry where
  v0 : V0
  posTrack : Track
  negTrack : Track

/-- `acceptV0` (source lines 67-78), translated cut for cut:
reject when the pointing-angle cosine at the collision vertex is `< v0cospa`;
reject when `|yK0Short| > rapidity`; reject when either daughter lacks a TPC
hit; reject when either daughter's `tpcNSigmaPi` exceeds `nSigTPC`;
otherwise accept. -/
def acceptV0 (cfg : Config) (v0 : V0) (ptrack ntrack : Track)
    (collision : Collision) : Bool :=
  if v0.v0cosPA collision.posX collision.posY collision.posZ < cfg.v0cospa then
    false
  else if |v0.yK0Short| > cfg.rapidity then
    false
  else if !ptrack.hasTPC || !ntrack.hasTPC then
    false
  else if ptrack.tpcNSigmaPi > cfg.nSigTPC || ntrack.tpcNSigmaPi > cfg.nSigTPC then
    false
  else
    true

/-- The histogram registry: each histogram is the list of values it has been
filled with, in fill order.  `h_EventCounter` records the abscissa of each
fill (`0` for "Total", `1` for "Selected"). -/
structure Registry where
  h_EventCounter : List ℚ
  h5_RpTmassITSStatus : List (ℚ × ℚ × ℚ × Bool × Bool)
  h5_RpTmassIBStatus : List (ℚ × ℚ × ℚ × Bool × Bool)
  h_R : List ℚ
  h_pT : List ℚ
  h_mass : List ℚ
  h_negITSStatus : List Bool
  h_posITSStatus : List Bool
  h_negIBStatus : List Bool
  h_posIBStatus : List Bool
  h_negIBhits : List ℕ
  h_posIBhits : List ℕ
deriving Repr, DecidableEq

/-- The empty registry (all histograms empty). -/
def Registry.empty : Registry :=
  { h_EventCounter := []
    h5_RpTmassITSStatus := []
    h5_RpTmassIBStatus := []
    h_R := []
    h_pT := []
    h_mass := []
    h_negITSStatus := []
    h_posITSStatus := []
    h_negIBStatus := []
    h_posIBStatus := []
    h_negIBhits := []
    h_posIBhits := [] }

/-- The inner-barrel hit-count loop of `process` (source lines 106-114) for
one track: for `i = 0, 1, 2`, increment the counter when
`itsClusterMap & (1 << i)` is nonzero. -/
def ibNhits (clusterMap : ℕ) : ℕ :=
  (List.range 3).foldl
    (fun acc i => if clusterMap &&& (1 <<< i) ≠ 0 then acc + 1 else acc) 0

/-- The body of the V0 loop of `process` (source lines 89-123): when
`acceptV0` holds, fill the 1D test histograms, the two 5D sparse histograms,
and the inner-barrel status/count histograms; otherwise leave the registry
unchanged.  Both `negHasITS` and `posHasITS` are read from the *negative*
track, exactly as in the source (lines 99-100). -/
def processOneV0 (cfg : Config) (collision : Collision) (reg : Registry)
    (e : V0Entry) : Registry :=
  if acceptV0 cfg e.v0 e.posTrack e.negTrack collision then
    let negHasITS := e.negTrack.hasITS
    let posHasITS := e.negTrack.hasITS
    let negIBNhits := ibNhits e.negTrack.itsClusterMap
    let posIBNhits := ibNhits e.posTrack.itsClusterMap
    let negHasIB := negIBNhits != 0
    let posHasIB := posIBNhits != 0
    { reg with
      h_R := reg.h_R ++ [e.v0.v0radius]
      h_pT := reg.h_pT ++ [e.v0.pt]
      h_mass := reg.h_mass ++ [e.v0.mK0Short]
      h_negITSStatus := reg.h_negITSStatus ++ [negHasITS]
      h_posITSStatus := reg.h_posITSStatus ++ [posHasITS]
      h5_RpTmassITSStatus := reg.h5_RpTmassITSStatus ++
        [(e.v0.v0radius, e.v0.pt, e.v0.mK0Short, negHasITS, posHasITS)]
      h_negIBStatus := reg.h_negIBStatus ++ [negHasIB]
      h_posIBStatus := reg.h_posIBStatus ++ [posHasIB]
      h_negIBhits := reg.h_negIBhits ++ [negIBNhits]
      h_posIBhits := reg.h_posIBhits ++ [posIBNhits]
      h5_RpTmassIBStatus := reg.h5_RpTmassIBStatus ++
        [(e.v0.v0radius, e.v0.pt, e.v0.mK0Short, negHasIB, posHasIB)] }
  else
    reg

/-- `process` (source lines 80-125): fill the "Total" bin, return early when
event selection is on and `sel8` fails, otherwise fill the "Selected" bin and
run the V0 loop. -/
def process (cfg : Config) (collision : Collision) (fullV0s : List V0Entry)
    (reg : Registry) : Registry :=
  let reg := { reg with h_EventCounter := reg.h_EventCounter ++ [0] }
  if cfg.eventSelection && !collision.sel8 then
    reg
  else
    let reg := { reg with h_EventCounter := reg.h_EventCounter ++ [1] }
    fullV0s.foldl (processOneV0 cfg collision) reg

/-- A batch of events: fold `process` over a list of (collision, V0 list)
pairs, as the host framework would call it once per event. -/
def processBatch (cfg : Config) (events : List (Collision × List V0Entry))
    (reg : Registry) : Registry :=
  events.foldl (fun r ev => process cfg ev.1 ev.2 r) reg

/-- Number of "Total" fills recorded in the event counter. -/
def totalCount (reg : Registry) : ℕ := reg.h_EventCounter.count 0

/-- Number of "Selected" fills recorded in the event counter. -/
def selectedCount (reg : Registry) : ℕ := reg.h_EventCounter.count 1

/-- A collision passing the quality selection, vertex at the origin. -/
def sampleCollision : Collision := { posX := 0, posY := 0, posZ := 0, sel8 := true }

/-- A collision failing the quality selection. -/
def unselCollision : Collision := { posX := 0, posY := 0, posZ := 0, sel8 := false }

/-- A daughter track with a TPC hit, an ITS hit, all three innermost layers
hit (bitmask 0b111 = 7) and PID deviation 1. -/
def sampleTrack : Track :=
  { hasTPC := true, hasITS := true, itsClusterMap := 7, tpcNSigmaPi := 1 }

/-- A daughter track with bits 0 and 1 of the ITS cluster bitmask set. -/
def ibTrack : Track :=
  { hasTPC := true, hasITS := true, itsClusterMap := 3, tpcNSigmaPi := 1 }

/-- A daughter track with no ITS information at all. -/
def noIBTrack : Track :=
  { hasTPC := true, hasITS := false, itsClusterMap := 0, tpcNSigmaPi := 1 }

/-- A daughter track whose PID deviation is the very negative value
-1000000, far below minus the default threshold. -/
def negPIDTrack : Track :=
  { hasTPC := true, hasITS := true, itsClusterMap := 7, tpcNSigmaPi := -1000000 }

/-- The V0 of the end-to-end scenario: pointing-angle cosine 0.999
(= 999/1000) at every vertex, rapidity 0.1, decay radius 3, transverse
momentum 2, invariant mass 0.5. -/
def sampleV0 : V0 :=
  { v0cosPA := fun _ _ _ => ⟨999, 1000, by norm_num, by norm_num⟩
    yK0Short := ⟨1, 10, by norm_num, by norm_num⟩
    v0radius := 3
    pt := 2
    mK0Short := ⟨1, 2, by norm_num, by norm_num⟩ }

/-- The end-to-end V0 candidate: `sampleV0` with `sampleTrack` as both
daughters. -/
def sampleEntry : V0Entry :=
  { v0 := sampleV0, posTrack := sampleTrack, negTrack := sampleTrack }

/-- A V0 candidate whose positive daughter has inner-barrel bitmask 3 and
whose negative daughter has bitmask 0. -/
def ibEntry : V0Entry :=
  { v0 := sampleV0, posTrack := ibTrack, negTrack := noIBTrack }

/-- The default configuration with event selection switched off. -/
def noSelConfig : Config := { defaultConfig with eventSelection := false }

end K0sQA

namespace K0sQA

/-- Helper characterisation of `acceptV0`: it returns `true` iff all four
selection conditions hold. -/
theorem acceptV0_eq_true_iff (cfg : Config) (v0 : V0) (ptrack ntrack : Track)
    (collision : Collision) :
    acceptV0 cfg v0 ptrack ntrack collision = true ↔
      (cfg.v0cospa ≤ v0.v0cosPA collision.posX collision.posY collision.posZ ∧
       |v0.yK0Short| ≤ cfg.rapidity ∧
       (ptrack.hasTPC = true ∧ ntrack.hasTPC = true) ∧
       (ptrack.tpcNSigmaPi ≤ cfg.nSigTPC ∧ ntrack.tpcNSigmaPi ≤ cfg.nSigTPC)) := by
  unfold acceptV0
  split_ifs with h1 h2 h3 h4
  · exact iff_of_false (by simp) (fun hc => absurd hc.1 (not_le.mpr h1))
  · exact iff_of_false (by simp) (fun hc => absurd hc.2.1 (not_le.mpr h2))
  · refine iff_of_false (by simp) (fun hc => ?_)
    simp [hc.2.2.1.1, hc.2.2.1.2] at h3
  · refine iff_of_false (by simp) (fun hc => ?_)
    rcases Bool.or_eq_true_iff.mp h4 with h | h
    · exact absurd (of_decide_eq_true h) (not_lt.mpr hc.2.2.2.1)
    · exact absurd (of_decide_eq_true h) (not_lt.mpr hc.2.2.2.2)
  · refine iff_of_true rfl ⟨le_of_not_lt h1, le_of_not_lt h2, ?_, ?_⟩
    · simp only [Bool.or_eq_true, Bool.not_eq_true'] at h3
      push_neg at h3
      exact ⟨eq_true_of_ne_false h3.1, eq_true_of_ne_false h3.2⟩
    · simp only [Bool.or_eq_true, decide_eq_true_eq] at h4
      push_neg at h4
      exact h4

/-- The inner-barrel bit test `m &&& (1 << i) ≠ 0` is exactly `Nat.testBit`. -/
theorem and_one_shiftLeft_ne_zero (m i : ℕ) :
    (m &&& (1 <<< i) ≠ 0) ↔ m.testBit i := by
  rw [Nat.one_shiftLeft, Nat.and_two_pow]
  cases h : m.testBit i <;> simp [h]

/-- `ibNhits` is the number of set bits among bit indices 0, 1, 2. -/
theorem ibNhits_eq (m : ℕ) :
    ibNhits m =
      (if m.testBit 0 then 1 else 0) + (if m.testBit 1 then 1 else 0) +
        (if m.testBit 2 then 1 else 0) := by
  have hr : List.range 3 = [0, 1, 2] := rfl
  rw [ibNhits, hr]
  simp only [List.foldl_cons, List.foldl_nil]
  rw [if_congr (and_one_shiftLeft_ne_zero m 0) rfl rfl,
      if_congr (and_one_shiftLeft_ne_zero m 1) rfl rfl,
      if_congr (and_one_shiftLeft_ne_zero m 2) rfl rfl]
  cases h0 : m.testBit 0 <;> cases h1 : m.testBit 1 <;> cases h2 : m.testBit 2 <;>
    simp [h0, h1, h2]

/-- `ibNhits` never exceeds 3. -/
theorem ibNhits_le_three (m : ℕ) : ibNhits m ≤ 3 := by
  rw [ibNhits_eq]
  split_ifs <;> omega

/-- For a natural number, `!= 0` is the same Boolean as `decide (0 < ·)`. -/
theorem bne_zero_eq_decide_pos (n : ℕ) : (n != 0) = decide (0 < n) := by
  cases n <;> simp

/-- `processOneV0` never touches the event counter histogram. -/
theorem processOneV0_eventCounter (cfg : Config) (collision : Collision)
    (reg : Registry) (e : V0Entry) :
    (processOneV0 cfg collision reg e).h_EventCounter = reg.h_EventCounter := by
  unfold processOneV0
  split <;> rfl

/-- The whole V0 loop never touches the event counter histogram. -/
theorem foldl_processOneV0_eventCounter (cfg : Config) (collision : Collision)
    (l : List V0Entry) (reg : Registry) :
    (l.foldl (processOneV0 cfg collision) reg).h_EventCounter =
      reg.h_EventCounter := by
  induction l generalizing reg with
  | nil => rfl
  | cons a t ih => rw [List.foldl_cons, ih, processOneV0_eventCounter]

/-- After one `process` call the event counter has gained `[0]` when the
event is rejected and `[0, 1]` when it is kept. -/
theorem process_eventCounter (cfg : Config) (collision : Collision)
    (v0s : List V0Entry) (reg : Registry) :
    (process cfg collision v0s reg).h_EventCounter =
      if cfg.eventSelection && !collision.sel8
      then reg.h_EventCounter ++ [0]
      else reg.h_EventCounter ++ [0, 1] := by
  unfold process
  split
  · rfl
  · rw [foldl_processOneV0_eventCounter]
    simp

/-- One `process` call adds exactly one "Total" fill. -/
theorem totalCount_process (cfg : Config) (collision : Collision)
    (v0s : List V0Entry) (reg : Registry) :
    totalCount (process cfg collision v0s reg) = totalCount reg + 1 := by
  unfold totalCount
  rw [process_eventCounter]
  split <;> norm_num [List.count_append, List.count_cons]

/-- One `process` call adds one "Selected" fill exactly when the event is
kept, i.e. when event selection is off or `sel8` holds. -/
theorem selectedCount_process (cfg : Config) (collision : Collision)
    (v0s : List V0Entry) (reg : Registry) :
    selectedCount (process cfg collision v0s reg) =
      if cfg.eventSelection && !collision.sel8
      then selectedCount reg
      else selectedCount reg + 1 := by
  unfold selectedCount
  rw [process_eventCounter]
  split <;> norm_num [List.count_append, List.count_cons]

/-- A batch of `process` calls preserves "Selected" ≤ "Total". -/
theorem selected_le_total_processBatch (cfg : Config)
    (events : List (Collision × List V0Entry)) (reg : Registry)
    (h : selectedCount reg ≤ totalCount reg) :
    selectedCount (processBatch cfg events reg) ≤
      totalCount (processBatch cfg events reg) := by
  induction events generalizing reg with
  | nil => exact h
  | cons ev t ih =>
    simp only [processBatch, List.foldl_cons]
    exact ih _ (by rw [totalCount_process, selectedCount_process]; split <;> omega)

/-- **C1.** `acceptV0(v0, posTrack, negTrack, event)` returns `true` iff all
four conditions hold: the V0's pointing-angle cosine at the event vertex
position is at least the configured threshold, the absolute K0s rapidity is
at most the configured threshold, both daughter tracks have a TPC hit, and
both daughters' TPC pion-hypothesis PID deviations are at most the
configured threshold; equivalently it returns `false` exactly when at least
one of the four conditions fails. -/
theorem acceptV0_accepts_iff_all_cuts (cfg : Config) (v0 : V0)
    (ptrack ntrack : Track) (collision : Collision) :
    acceptV0 cfg v0 ptrack ntrack collision = true ↔
      (cfg.v0cospa ≤ v0.v0cosPA collision.posX collision.posY collision.posZ ∧
       |v0.yK0Short| ≤ cfg.rapidity ∧
       (ptrack.hasTPC = true ∧ ntrack.hasTPC = true) ∧
       (ptrack.tpcNSigmaPi ≤ cfg.nSigTPC ∧ ntrack.tpcNSigmaPi ≤ cfg.nSigTPC)) :=
  acceptV0_eq_true_iff cfg v0 ptrack ntrack collision

/-- **C2.** For every accepted V0 both recorded ITS statuses equal the
*negative* track's `hasITS` flag: the 5D histogram `h5_RpTmassITSStatus`
receives a tuple whose fourth and fifth coordinates are both
`negTrack.hasITS`, and the 1D histograms `h_negITSStatus` and
`h_posITSStatus` receive that same value (the positive track's `hasITS`
flag is never read). -/
theorem processOneV0_both_its_from_negTrack (cfg : Config)
    (collision : Collision) (reg : Registry) (e : V0Entry)
    (h : acceptV0 cfg e.v0 e.posTrack e.negTrack collision = true) :
    (processOneV0 cfg collision reg e).h5_RpTmassITSStatus =
      reg.h5_RpTmassITSStatus ++
        [(e.v0.v0radius, e.v0.pt, e.v0.mK0Short,
          e.negTrack.hasITS, e.negTrack.hasITS)] ∧
    (processOneV0 cfg collision reg e).h_negITSStatus =
      reg.h_negITSStatus ++ [e.negTrack.hasITS] ∧
    (processOneV0 cfg collision reg e).h_posITSStatus =
      reg.h_posITSStatus ++ [e.negTrack.hasITS] := by
  unfold processOneV0
  rw [h]
  exact ⟨rfl, rfl, rfl⟩

/-- Witness for C2: the concrete accepted end-to-end candidate. -/
theorem processOneV0_both_its_from_negTrack_witness :
    (processOneV0 defaultConfig sampleCollision Registry.empty
        sampleEntry).h5_RpTmassITSStatus =
      Registry.empty.h5_RpTmassITSStatus ++
        [(sampleEntry.v0.v0radius, sampleEntry.v0.pt, sampleEntry.v0.mK0Short,
          sampleEntry.negTrack.hasITS, sampleEntry.negTrack.hasITS)] ∧
    (processOneV0 defaultConfig sampleCollision Registry.empty
        sampleEntry).h_negITSStatus =
      Registry.empty.h_negITSStatus ++ [sampleEntry.negTrack.hasITS] ∧
    (processOneV0 defaultConfig sampleCollision Registry.empty
        sampleEntry).h_posITSStatus =
      Registry.empty.h_posITSStatus ++ [sampleEntry.negTrack.hasITS] :=
  processOneV0_both_its_from_negTrack defaultConfig sampleCollision
    Registry.empty sampleEntry (by decide)

/-- **C3.** Each `process` call increments the "Total" bin exactly once and
the "Selected" bin at most once, and over any batch of events started from
the empty registry the "Selected" count never exceeds the "Total" count. -/
theorem eventCounter_invariants (cfg : Config) (collision : Collision)
    (v0s : List V0Entry) (reg : Registry)
    (events : List (Collision × List V0Entry)) :
    totalCount (process cfg collision v0s reg) = totalCount reg + 1 ∧
    selectedCount reg ≤ selectedCount (process cfg collision v0s reg) ∧
    selectedCount (process cfg collision v0s reg) ≤ selectedCount reg + 1 ∧
    selectedCount (processBatch cfg events Registry.empty) ≤
      totalCount (processBatch cfg events Registry.empty) := by
  refine ⟨totalCount_process cfg collision v0s reg, ?_, ?_,
    selected_le_total_processBatch cfg events Registry.empty (by decide)⟩
  · rw [selectedCount_process]
    split <;> omega
  · rw [selectedCount_process]
    split <;> omega

/-- **C4 counterexample.** With event selection disabled, an event whose
quality flag `sel8` is false still increments the "Selected" bin: the claim
that a `sel8`-failing event never contributes to "Selected" for *every*
setting of the event-selection configurable is false. -/
theorem selected_filled_despite_failing_sel8 :
    unselCollision.sel8 = false ∧
    selectedCount (process noSelConfig unselCollision [] Registry.empty) =
      selectedCount Registry.empty + 1 := by
  decide

/-- **C4 (amended).** The "Selected" bin is incremented exactly when the
event is kept, i.e. when event selection is disabled or the event passes
`sel8`; in particular, with event selection enabled an event failing `sel8`
never contributes to "Selected", while with event selection disabled even a
`sel8`-failing event does. -/
theorem selectedCount_process_iff_kept (cfg : Config) (collision : Collision)
    (v0s : List V0Entry) (reg : Registry) :
    selectedCount (process cfg collision v0s reg) =
      if cfg.eventSelection && !collision.sel8
      then selectedCount reg
      else selectedCount reg + 1 :=
  selectedCount_process cfg collision v0s reg

/-- **C5.** With event selection enabled and `sel8` false, `process` returns
right after the "Total" fill: the result is the input registry with only
`h_EventCounter` extended by the "Total" entry, every other histogram
untouched and no V0 examined. -/
theorem process_unselected_frame (cfg : Config) (collision : Collision)
    (v0s : List V0Entry) (reg : Registry)
    (h1 : cfg.eventSelection = true) (h2 : collision.sel8 = false) :
    process cfg collision v0s reg =
      { reg with h_EventCounter := reg.h_EventCounter ++ [0] } := by
  unfold process
  rw [h1, h2]
  rfl

/-- Witness for C5: the default configuration and a `sel8`-failing
collision with a nonempty V0 list. -/
theorem process_unselected_frame_witness :
    defaultConfig.eventSelection = true ∧ unselCollision.sel8 = false ∧
    process defaultConfig unselCollision [sampleEntry] Registry.empty =
      { Registry.empty with
        h_EventCounter := Registry.empty.h_EventCounter ++ [0] } :=
  ⟨rfl, rfl, process_unselected_frame defaultConfig unselCollision
    [sampleEntry] Registry.empty rfl rfl⟩

/-- **C6.** End to end: for a `sel8`-passing event with exactly one V0
candidate having pointing-angle cosine 0.999, rapidity 0.1, both daughters
with a TPC hit, PID deviation 1 and ITS bitmask 0b111, `acceptV0` returns
`true` and each of the two sparse 5D histograms receives exactly one fill,
with coordinates (radius, pT, mass, true, true). -/
theorem process_end_to_end_single_fill :
    acceptV0 defaultConfig sampleEntry.v0 sampleEntry.posTrack
        sampleEntry.negTrack sampleCollision = true ∧
    (process defaultConfig sampleCollision [sampleEntry]
        Registry.empty).h5_RpTmassITSStatus =
      [(sampleV0.v0radius, sampleV0.pt, sampleV0.mK0Short, true, true)] ∧
    (process defaultConfig sampleCollision [sampleEntry]
        Registry.empty).h5_RpTmassIBStatus =
      [(sampleV0.v0radius, sampleV0.pt, sampleV0.mK0Short, true, true)] := by
  decide

/-- **C7.** For every accepted V0, the inner-barrel hit counts filled for
the negative and positive daughters are `ibNhits` of the respective ITS
cluster bitmask, the has-inner-barrel booleans filled are exactly
"count > 0", and for every bitmask `ibNhits` is the number of set bits
among bit indices 0, 1 and 2, hence at most 3. -/
theorem processOneV0_ib_counts (cfg : Config) (collision : Collision)
    (reg : Registry) (e : V0Entry)
    (h : acceptV0 cfg e.v0 e.posTrack e.negTrack collision = true) :
    (processOneV0 cfg collision reg e).h_negIBhits =
      reg.h_negIBhits ++ [ibNhits e.negTrack.itsClusterMap] ∧
    (processOneV0 cfg collision reg e).h_posIBhits =
      reg.h_posIBhits ++ [ibNhits e.posTrack.itsClusterMap] ∧
    (processOneV0 cfg collision reg e).h_negIBStatus =
      reg.h_negIBStatus ++ [decide (0 < ibNhits e.negTrack.itsClusterMap)] ∧
    (processOneV0 cfg collision reg e).h_posIBStatus =
      reg.h_posIBStatus ++ [decide (0 < ibNhits e.posTrack.itsClusterMap)] ∧
    (∀ m : ℕ,
      ibNhits m =
        (if m.testBit 0 then 1 else 0) + (if m.testBit 1 then 1 else 0) +
          (if m.testBit 2 then 1 else 0) ∧
      ibNhits m ≤ 3) := by
  unfold processOneV0
  rw [h]
  exact ⟨rfl, rfl, by simp [bne_zero_eq_decide_pos],
    by simp [bne_zero_eq_decide_pos],
    fun m => ⟨ibNhits_eq m, ibNhits_le_three m⟩⟩

/-- Witness for C7: an accepted candidate whose positive daughter has
bitmask 3 (bits {0,1} set, count 2) and whose negative daughter has
bitmask 0 (count 0). -/
theorem processOneV0_ib_counts_witness :
    acceptV0 defaultConfig ibEntry.v0 ibEntry.posTrack ibEntry.negTrack
        sampleCollision = true ∧
    ((processOneV0 defaultConfig sampleCollision Registry.empty
        ibEntry).h_negIBhits =
      Registry.empty.h_negIBhits ++ [ibNhits ibEntry.negTrack.itsClusterMap] ∧
    (processOneV0 defaultConfig sampleCollision Registry.empty
        ibEntry).h_posIBhits =
      Registry.empty.h_posIBhits ++ [ibNhits ibEntry.posTrack.itsClusterMap] ∧
    (processOneV0 defaultConfig sampleCollision Registry.empty
        ibEntry).h_negIBStatus =
      Registry.empty.h_negIBStatus ++
        [decide (0 < ibNhits ibEntry.negTrack.itsClusterMap)] ∧
    (processOneV0 defaultConfig sampleCollision Registry.empty
        ibEntry).h_posIBStatus =
      Registry.empty.h_posIBStatus ++
        [decide (0 < ibNhits ibEntry.posTrack.itsClusterMap)] ∧
    (∀ m : ℕ,
      ibNhits m =
        (if m.testBit 0 then 1 else 0) + (if m.testBit 1 then 1 else 0) +
          (if m.testBit 2 then 1 else 0) ∧
      ibNhits m ≤ 3)) :=
  ⟨by decide, processOneV0_ib_counts defaultConfig sampleCollision
    Registry.empty ibEntry (by decide)⟩

/-- **C8.** The PID cut is a one-sided upper bound: once the pointing-angle,
rapidity and TPC-hit cuts hold, `acceptV0` accepts exactly when both
daughters' PID deviations are at most the threshold, however negative they
may be — a deviation below minus the threshold never causes rejection. -/
theorem acceptV0_pid_one_sided (cfg : Config) (v0 : V0)
    (ptrack ntrack : Track) (collision : Collision)
    (h1 : cfg.v0cospa ≤ v0.v0cosPA collision.posX collision.posY collision.posZ)
    (h2 : |v0.yK0Short| ≤ cfg.rapidity)
    (h3 : ptrack.hasTPC = true) (h4 : ntrack.hasTPC = true) :
    acceptV0 cfg v0 ptrack ntrack collision = true ↔
      (ptrack.tpcNSigmaPi ≤ cfg.nSigTPC ∧ ntrack.tpcNSigmaPi ≤ cfg.nSigTPC) := by
  rw [acceptV0_eq_true_iff]
  simp [h1, h2, h3, h4]

/-- Witness for C8: with both daughters' PID deviation equal to -1000000,
far below minus the default threshold 10, the candidate is still accepted. -/
theorem acceptV0_pid_one_sided_witness :
    negPIDTrack.tpcNSigmaPi = -1000000 ∧
    (acceptV0 defaultConfig sampleV0 negPIDTrack negPIDTrack sampleCollision
        = true ↔
      (negPIDTrack.tpcNSigmaPi ≤ defaultConfig.nSigTPC ∧
       negPIDTrack.tpcNSigmaPi ≤ defaultConfig.nSigTPC)) :=
  ⟨rfl, acceptV0_pid_one_sided defaultConfig sampleV0 negPIDTrack negPIDTrack
    sampleCollision (by decide) (by decide) rfl rfl⟩

/-- **C9.** `acceptV0` is a deterministic function of its arguments and the
configuration: two calls with equal inputs return the same Boolean.  (In
this embedding `acceptV0` consumes no registry and produces only a Boolean,
so histogram fills and input mutation are ruled out by its type.) -/
theorem acceptV0_deterministic (cfg cfg' : Config) (v0 v0' : V0)
    (p p' n n' : Track) (c c' : Collision)
    (hcfg : cfg = cfg') (hv : v0 = v0') (hp : p = p') (hn : n = n')
    (hc : c = c') :
    acceptV0 cfg v0 p n c = acceptV0 cfg' v0' p' n' c' := by
  subst hcfg; subst hv; subst hp; subst hn; subst hc; rfl

/-- Witness for C9: the determinism theorem applied at the concrete
end-to-end inputs. -/
theorem acceptV0_deterministic_witness :
    acceptV0 defaultConfig sampleV0 sampleTrack sampleTrack sampleCollision =
      acceptV0 defaultConfig sampleV0 sampleTrack sampleTrack sampleCollision :=
  acceptV0_deterministic defaultConfig defaultConfig sampleV0 sampleV0
    sampleTrack sampleTrack sampleTrack sampleTrack sampleCollision
    sampleCollision rfl rfl rfl rfl rfl

/-- **C10.** `acceptV0` is independent of both daughters' ITS fields: for
tracks that agree on `hasTPC` and `tpcNSigmaPi` but may differ arbitrarily
in `hasITS` and `itsClusterMap`, the result is unchanged. -/
theorem acceptV0_independent_of_its (cfg : Config) (v0 : V0)
    (p p' n n' : Track) (collision : Collision)
    (hp1 : p.hasTPC = p'.hasTPC) (hp2 : p.tpcNSigmaPi = p'.tpcNSigmaPi)
    (hn1 : n.hasTPC = n'.hasTPC) (hn2 : n.tpcNSigmaPi = n'.tpcNSigmaPi) :
    acceptV0 cfg v0 p n collision = acceptV0 cfg v0 p' n' collision := by
  unfold acceptV0
  rw [hp1, hp2, hn1, hn2]

/-- Witness for C10: `sampleTrack` (hasITS, bitmask 7) and `noIBTrack`
(no ITS, bitmask 0) differ only in their ITS fields, and `acceptV0` agrees
on them. -/
theorem acceptV0_independent_of_its_witness :
    sampleTrack.hasITS ≠ noIBTrack.hasITS ∧
    sampleTrack.itsClusterMap ≠ noIBTrack.itsClusterMap ∧
    acceptV0 defaultConfig sampleV0 sampleTrack sampleTrack sampleCollision =
      acceptV0 defaultConfig sampleV0 noIBTrack noIBTrack sampleCollision :=
  ⟨by decide, by decide, acceptV0_independent_of_its defaultConfig sampleV0
    sampleTrack noIBTrack sampleTrack noIBTrack sampleCollision
    rfl rfl rfl rfl⟩

end K0sQA
